import Mathlib

/-!
Shallow embedding of the universal-location-parser core (JSON-timeline /
GPX / KML parsers, record normalizer, merge-and-order engine) together
with theorems settling the frozen claims about it.

Modelling conventions, used throughout:
* Python strings are `List Char`; Python floats are modelled as exact
  rationals `ℚ` (decimal literals are exactly representable there).
* Python `None` is `Option.none`; a fallible Python expression is a value
  of `Except PyErr _`, and a `try/except` block is a `match` on it.
* `pandas` timestamps are wall-clock minutes together with an optional
  timezone offset in minutes (`PTimestamp`); `Asia/Tokyo` is the fixed
  offset +540 and `UTC` is 0, matching the config constants.
-/

/-- Python exception classes that the embedded code can raise. -/
inductive PyErr where
  | typeErr
  | keyErr
  | valueErr
  | attrErr
  | xmlSyntaxErr
deriving DecidableEq

/-- Model of Python `str.lower()`. `Char.toLower` lowercases ASCII letters and
leaves everything else (in particular the Japanese keywords) unchanged, which
matches `str.lower()` on every string the parsers compare. -/
def pyLower (s : List Char) : List Char := s.map Char.toLower

/-- Model of the Python substring test `sub in s`. -/
def pyInStr (sub s : List Char) : Bool :=
  match s with
  | [] => sub.isEmpty
  | _ :: t => sub.isPrefixOf s || pyInStr sub t

/-- Fuel-driven worker for `pySplit` (structural recursion so that concrete
instances reduce in the kernel). -/
def pySplitAux (sep : List Char) : Nat → List Char → List Char → List (List Char)
  | 0, cur, rest => [cur.reverse ++ rest]
  | _ + 1, cur, [] => [cur.reverse]
  | fuel + 1, cur, c :: rest =>
    if sep.isPrefixOf (c :: rest) then
      cur.reverse :: pySplitAux sep fuel [] (List.drop (sep.length - 1) rest)
    else
      pySplitAux sep fuel (c :: cur) rest

/-- Model of Python `s.split(sep)` for a non-empty separator: keeps empty
fields, exactly like Python with an explicit separator argument. -/
def pySplit (s sep : List Char) : List (List Char) := pySplitAux sep s.length [] s

/-- Fuel-driven worker for `pyReplace`. -/
def pyReplaceAux (old new : List Char) : Nat → List Char → List Char
  | 0, rest => rest
  | _ + 1, [] => []
  | fuel + 1, c :: rest =>
    if old.isPrefixOf (c :: rest) then
      new ++ pyReplaceAux old new fuel (List.drop (old.length - 1) rest)
    else
      c :: pyReplaceAux old new fuel rest

/-- Model of Python `s.replace(old, new)` for a non-empty `old`: replaces
every non-overlapping occurrence, left to right. -/
def pyReplace (s old new : List Char) : List Char := pyReplaceAux old new s.length s

/-- Model of Python `s.split()` (no separator): split on whitespace runs,
discarding empty fields. -/
def pySplitWs (s : List Char) : List (List Char) :=
  let isWs := fun c => c = ' ' || c = '\t' || c = '\n' || c = '\r'
  (s.splitOnP isWs).filter (fun p => !p.isEmpty)

/-- Decimal digit run to a natural number. -/
def digitsToNat (ds : List Char) : Nat := ds.foldl (fun a c => a * 10 + (c.toNat - 48)) 0

/-- Mantissa part of `pyFloatChars`: `digits [. digits]`, at least one digit. -/
def pyFloatMantissa (r : List Char) : Option ℚ :=
  let intPart := r.takeWhile Char.isDigit
  let rest := r.dropWhile Char.isDigit
  match rest with
  | [] => if intPart.isEmpty then none else some (digitsToNat intPart : ℚ)
  | '.' :: frac =>
    if frac.all Char.isDigit && !(intPart.isEmpty && frac.isEmpty) then
      some ((digitsToNat intPart : ℚ) + (digitsToNat frac : ℚ) / (10 ^ frac.length : ℚ))
    else none
  | _ => none

/-- Model of Python `float(s)` on a string, restricted to finite decimal
literals `[ws] [+|-] digits [. digits] [ws]`. Scientific notation, `inf`,
`nan` and underscore digit separators are not modelled; no input handled by
this repository's parsers uses them. `none` models the `ValueError` that
every caller catches. -/
def pyFloatChars (s : List Char) : Option ℚ :=
  let isWs := fun c => c = ' ' || c = '\t' || c = '\n' || c = '\r'
  let t := ((s.dropWhile isWs).reverse.dropWhile isWs).reverse
  match t with
  | '+' :: r => pyFloatMantissa r
  | '-' :: r => (pyFloatMantissa r).map (fun q => -q)
  | r => pyFloatMantissa r

/-- JSON values as loaded by Python `json.load`: numbers are modelled as
exact rationals. -/
inductive Json where
  | null
  | bool (b : Bool)
  | num (q : ℚ)
  | str (s : List Char)
  | arr (xs : List Json)
  | obj (kvs : List (List Char × Json))

/-- First-match lookup in a Python dict (keys are unique in dicts built by
`json.load`, so first-match is exact). -/
def jLookup (k : List Char) : List (List Char × Json) → Option Json
  | [] => none
  | (k', v) :: t => if k' == k then some v else jLookup k t

/-- Python truthiness of a JSON-loaded value. -/
def pyTruthy : Json → Bool
  | .null => false
  | .bool b => b
  | .num q => q != 0
  | .str s => !s.isEmpty
  | .arr xs => !xs.isEmpty
  | .obj kvs => !kvs.isEmpty

/-- Truthiness of an optional float (`None` and `0.0` are falsy). -/
def pyTruthyQ : Option ℚ → Bool
  | none => false
  | some q => q != 0

/-- Model of Python `d.get(k)`: `AttributeError` unless `d` is a dict. -/
def pyGet (j : Json) (k : List Char) : Except PyErr (Option Json) :=
  match j with
  | .obj kvs => .ok (jLookup k kvs)
  | _ => .error .attrErr

/-- Model of Python `d.get(k, default)`. -/
def pyGetD (j : Json) (k : List Char) (d : Json) : Except PyErr Json :=
  match j with
  | .obj kvs => .ok ((jLookup k kvs).getD d)
  | _ => .error .attrErr

/-- Model of Python `d[k]` subscript on a JSON value with a string key:
`KeyError` when the key is absent from a dict, `TypeError` otherwise. -/
def pySub (j : Json) (k : List Char) : Except PyErr Json :=
  match j with
  | .obj kvs =>
    match jLookup k kvs with
    | some v => .ok v
    | none => .error .keyErr
  | _ => .error .typeErr

/-- Model of Python `k in j` for a string `k`: key membership in a dict,
substring test in a string, `==`-membership in a list (a string compares
equal only to an equal string), `TypeError` otherwise. -/
def pyContains (j : Json) (k : List Char) : Except PyErr Bool :=
  match j with
  | .obj kvs => .ok (kvs.any (fun p => p.1 == k))
  | .str s => .ok (pyInStr k s)
  | .arr xs => .ok (xs.any (fun x => match x with | .str t => t == k | _ => false))
  | _ => .error .typeErr

/-- Model of Python iteration `for x in j`: list elements, string characters,
dict keys; `TypeError` otherwise. -/
def pyIter (j : Json) : Except PyErr (List Json) :=
  match j with
  | .arr xs => .ok xs
  | .str s => .ok (s.map (fun c => Json.str [c]))
  | .obj kvs => .ok (kvs.map (fun p => Json.str p.1))
  | _ => .error .typeErr

/-- Model of Python `float(v)` on a JSON-loaded value. -/
def pyFloatJson (v : Json) : Except PyErr ℚ :=
  match v with
  | .num q => .ok q
  | .bool b => .ok (if b then 1 else 0)
  | .str s =>
    match pyFloatChars s with
    | some q => .ok q
    | none => .error .valueErr
  | _ => .error .typeErr

/-! ## json_parser.py -/

/-- One raw record emitted by the JSON-timeline parser (`json_parser.py`
builds plain dicts; time and payload fields hold the raw JSON values, and
the coordinate fields hold parsed floats or `None`). Values the iPhone
path converts with `float(...)` are stored as `Json.num`. -/
structure JRec where
  type_ : List Char
  start_time : Option Json
  end_time : Option Json
  point_time : Option Json
  latitude : Option ℚ
  longitude : Option ℚ
  visit_probability : Option Json
  visit_placeId : Option Json
  visit_semanticType : Option Json
  activity_distanceMeters : Option Json
  activity_type : Option Json
  activity_probability : Option Json
  username : List Char

/-- `json_parser.detect_format`: a non-empty list whose first element
contains `startTime` is the iPhone dialect; a dict containing
`semanticSegments` is the Android dialect; anything else raises
`ValueError`. -/
def detect_format (data : Json) : Except PyErr (List Char) := do
  let isIphone ←
    match data with
    | .arr (x :: _) => pyContains x "startTime".data
    | _ => pure false
  if isIphone then
    pure "iphone".data
  else if (match data with
           | .obj kvs => kvs.any (fun p => p.1 == "semanticSegments".data)
           | _ => false) then
    pure "android".data
  else
    .error .valueErr

/-- `json_parser.extract_geo_coordinates`: strips `geo:`, splits on commas,
parses the first two fields as floats; every failure path falls back to
`(None, None)`. -/
def extract_geo_coordinates (geo : Json) : Option ℚ × Option ℚ :=
  match geo with
  | .str s =>
    if s.isEmpty then (none, none)
    else
      match pySplit (pyReplace s "geo:".data []) ",".data with
      | a :: b :: _ =>
        match pyFloatChars a, pyFloatChars b with
        | some x, some y => (some x, some y)
        | _, _ => (none, none)
      | _ => (none, none)
  | _ => (none, none)

/-- The coordinate expression the Android path uses three times:
`lat, lng = map(float, v.replace(chr(176), chr(32)+...).split(...))` wrapped
in its `try/except`, i.e. strip degree signs, split on a comma-space, and
require exactly two float fields; any failure (wrong type, wrong arity,
unparsable float) yields `(None, None)`. -/
def parse_latlng_degrees (v : Json) : Option ℚ × Option ℚ :=
  match v with
  | .str s =>
    match pySplit (pyReplace s "°".data []) ", ".data with
    | [a, b] =>
      match pyFloatChars a, pyFloatChars b with
      | some x, some y => (some x, some y)
      | _, _ => (none, none)
    | _ => (none, none)
  | _ => (none, none)

/-- The `timelinePath` coordinate access: `path` is subscripted with
`point` inside the same `try`, so a missing key also falls back to
`(None, None)`. -/
def timelinePathLatLng (path : Json) : Option ℚ × Option ℚ :=
  match pySub path "point".data with
  | .error _ => (none, none)
  | .ok v => parse_latlng_degrees v

/-- The Android `visit` coordinate chain
`top_candidate.get(placeLocation, dict()).get(latLng, str()).replace...`,
evaluated inside the same `try`. -/
def visitLatLngChain (tc : Json) : Option ℚ × Option ℚ :=
  match (do
    let pl ← pyGetD tc "placeLocation".data (.obj [])
    pyGetD pl "latLng".data (.str []) : Except PyErr Json) with
  | .error _ => (none, none)
  | .ok v => parse_latlng_degrees v

/-- One `timelinePath` element of an Android segment. -/
def androidTimelinePathRec (st en : Option Json) (username : List Char) (path : Json) :
    Except PyErr JRec := do
  let point_time ← pyGet path "time".data
  let pair := timelinePathLatLng path
  pure {
    type_ := "timelinePath".data
    start_time := st, end_time := en, point_time := point_time
    latitude := pair.1, longitude := pair.2
    visit_probability := none, visit_placeId := none, visit_semanticType := none
    activity_distanceMeters := none, activity_type := none, activity_probability := none
    username := username }

/-- The Android `activity` handling for one of the keys `start` / `end`:
a record is appended whenever the key is present and its value contains
`latLng`, with the (possibly failed, hence `None`) parsed coordinates. -/
def androidActivityKey (activity tc : Json) (st en : Option Json)
    (username key : List Char) : Except PyErr (List JRec) := do
  let hasKey ← pyContains activity key
  if hasKey then do
    let subv ← pySub activity key
    let hasLL ← pyContains subv "latLng".data
    if hasLL then do
      let pair :=
        match (do
          let s ← pySub activity key
          pySub s "latLng".data : Except PyErr Json) with
        | .error _ => (none, none)
        | .ok v => parse_latlng_degrees v
      let dist ← pyGet activity "distanceMeters".data
      let atype ← pyGet tc "type".data
      let aprob ← pyGet tc "probability".data
      pure [{
        type_ := "activity_".data ++ key
        start_time := st, end_time := en, point_time := none
        latitude := pair.1, longitude := pair.2
        visit_probability := none, visit_placeId := none, visit_semanticType := none
        activity_distanceMeters := dist, activity_type := atype, activity_probability := aprob
        username := username }]
    else pure []
  else pure []

/-- One Android segment (`json_parser.parse_android_data` loop body). -/
def parse_android_segment (username : List Char) (seg : Json) : Except PyErr (List JRec) := do
  let st ← pyGet seg "startTime".data
  let en ← pyGet seg "endTime".data
  let hasTP ← pyContains seg "timelinePath".data
  let tpRecs ←
    if hasTP then do
      let tp ← pySub seg "timelinePath".data
      let paths ← pyIter tp
      paths.mapM (androidTimelinePathRec st en username)
    else pure []
  let hasVisit ← pyContains seg "visit".data
  let visitRecs ←
    if hasVisit then do
      let visit ← pySub seg "visit".data
      let tc ← pyGetD visit "topCandidate".data (.obj [])
      let pair := visitLatLngChain tc
      let vprob ← pyGet visit "probability".data
      let placeId ← pyGet tc "placeId".data
      let semType ← pyGet tc "semanticType".data
      pure [{
        type_ := "visit".data
        start_time := st, end_time := en, point_time := none
        latitude := pair.1, longitude := pair.2
        visit_probability := vprob, visit_placeId := placeId, visit_semanticType := semType
        activity_distanceMeters := none, activity_type := none, activity_probability := none
        username := username : JRec }]
    else pure []
  let hasAct ← pyContains seg "activity".data
  let actRecs ←
    if hasAct then do
      let activity ← pySub seg "activity".data
      let tc ← pyGetD activity "topCandidate".data (.obj [])
      let sRecs ← androidActivityKey activity tc st en username "start".data
      let eRecs ← androidActivityKey activity tc st en username "end".data
      pure (sRecs ++ eRecs)
    else pure []
  pure (tpRecs ++ visitRecs ++ actRecs)

/-- `json_parser.parse_android_data`. -/
def parse_android_data (data : Json) (username : List Char) : Except PyErr (List JRec) := do
  let segs ← pySub data "semanticSegments".data
  let segList ← pyIter segs
  segList.foldlM (fun acc seg => do pure (acc ++ (← parse_android_segment username seg))) []

/-- The iPhone conditional float fields:
`float(j.get(k, 0)) if j.get(k) else None`. -/
def iphoneFloatOpt (j : Json) (k : List Char) : Except PyErr (Option Json) := do
  let raw ← pyGet j k
  match raw with
  | some v =>
    if pyTruthy v then do
      let q ← pyFloatJson v
      pure (some (Json.num q))
    else pure none
  | none => pure none

/-- The iPhone `activity` handling for one of `start` / `end`: a record is
appended only when both parsed coordinates are truthy (non-`None` and
non-zero). -/
def iphoneActivityKey (activity tc : Json) (st en : Option Json)
    (username key : List Char) : Except PyErr (List JRec) := do
  let v ← pyGetD activity key (.str [])
  let pair := extract_geo_coordinates v
  if pyTruthyQ pair.1 && pyTruthyQ pair.2 then do
    let dm ← iphoneFloatOpt activity "distanceMeters".data
    let atype ← pyGet tc "type".data
    let aprob ← iphoneFloatOpt tc "probability".data
    pure [{
      type_ := "activity_".data ++ key
      start_time := st, end_time := en, point_time := none
      latitude := pair.1, longitude := pair.2
      visit_probability := none, visit_placeId := none, visit_semanticType := none
      activity_distanceMeters := dm, activity_type := atype, activity_probability := aprob
      username := username }]
  else pure []

/-- One iPhone segment (`json_parser.parse_iphone_data` loop body). -/
def parse_iphone_segment (username : List Char) (seg : Json) : Except PyErr (List JRec) := do
  let st ← pyGet seg "startTime".data
  let en ← pyGet seg "endTime".data
  let hasVisit ← pyContains seg "visit".data
  let visitRecs ←
    if hasVisit then do
      let visit ← pySub seg "visit".data
      let tc ← pyGetD visit "topCandidate".data (.obj [])
      let pl ← pyGetD tc "placeLocation".data (.str [])
      let pair := extract_geo_coordinates pl
      let vprob ← iphoneFloatOpt visit "probability".data
      let placeID ← pyGet tc "placeID".data
      let semType ← pyGet tc "semanticType".data
      pure [{
        type_ := "visit".data
        start_time := st, end_time := en, point_time := none
        latitude := pair.1, longitude := pair.2
        visit_probability := vprob, visit_placeId := placeID, visit_semanticType := semType
        activity_distanceMeters := none, activity_type := none, activity_probability := none
        username := username : JRec }]
    else pure []
  let hasAct ← pyContains seg "activity".data
  let actRecs ←
    if hasAct then do
      let activity ← pySub seg "activity".data
      let tc ← pyGetD activity "topCandidate".data (.obj [])
      let sRecs ← iphoneActivityKey activity tc st en username "start".data
      let eRecs ← iphoneActivityKey activity tc st en username "end".data
      pure (sRecs ++ eRecs)
    else pure []
  pure (visitRecs ++ actRecs)

/-- `json_parser.parse_iphone_data`. -/
def parse_iphone_data (data : Json) (username : List Char) : Except PyErr (List JRec) := do
  let segs ← pyIter data
  segs.foldlM (fun acc seg => do pure (acc ++ (← parse_iphone_segment username seg))) []

/-- `json_parser.parse_json_data`: dispatch on the detected dialect; any
exception raised anywhere inside (including unknown-format `ValueError`)
is swallowed and an empty list returned. -/
def parse_json_data (data : Json) (username : List Char) : List JRec :=
  match (do
    let fmt ← detect_format data
    if fmt == "android".data then parse_android_data data username
    else if fmt == "iphone".data then parse_iphone_data data username
    else .error .valueErr : Except PyErr (List JRec)) with
  | .ok recs => recs
  | .error _ => []

/-! ## data_converter.py : timestamp normalization -/

/-- `config.INPUT_TIMEZONE` is the string `Asia/Tokyo`, a fixed UTC+9 zone;
modelled as its offset in minutes. -/
def INPUT_TZ_OFFSET_MIN : Int := 540

/-- `config.OUTPUT_TIMEZONE` is the string `UTC`; offset 0 minutes. -/
def OUTPUT_TZ_OFFSET_MIN : Int := 0

/-- A pandas `Timestamp`: a wall-clock reading in minutes plus the optional
timezone offset (in minutes) it is decorated with; `tz = none` is a naive
timestamp. -/
structure PTimestamp where
  wall : Int
  tz : Option Int
deriving DecidableEq

/-- What `pd.to_datetime(timestamp_str, errors=...)` produced from the raw
input: a falsy input string, an unparsable one (coerced to `NaT`), or a
parsed timestamp. -/
inductive TsInput where
  | empty
  | unparsable
  | parsed (ts : PTimestamp)

/-- The shared normalization steps of `convert_timestamp_to_utc` and
`_to_naive_utc._conv`: localize a naive value to the input timezone,
convert to the output timezone, strip the marker. Returns the naive
wall-clock reading in the output zone. -/
def naive_output_wall (ts : PTimestamp) : Int :=
  let dt : PTimestamp :=
    match ts.tz with
    | none => { wall := ts.wall, tz := some INPUT_TZ_OFFSET_MIN }
    | some _ => ts
  let instant := dt.wall - dt.tz.getD 0
  instant + OUTPUT_TZ_OFFSET_MIN

/-- `data_converter.convert_timestamp_to_utc`: falsy input and unparsable
input yield `None`; otherwise localize-convert-strip as above. -/
def convert_timestamp_to_utc : TsInput → Option Int
  | .empty => none
  | .unparsable => none
  | .parsed ts => some (naive_output_wall ts)

/-! ## data_converter.py : sort_dataframe_by_time -/

/-- The slice of one merged dataframe row that `sort_dataframe_by_time`
reads: the three optional time columns, plus the positional index `pos`
the row carries after `ignore_index` concatenation (pandas row label). -/
structure SRow where
  point_time : Option PTimestamp
  start_time : Option PTimestamp
  end_time : Option PTimestamp
  pos : Nat
deriving DecidableEq

/-- `data_converter._to_naive_utc` applied to one cell (`_conv`): `None`
and `NaT` stay `None`; otherwise the value is normalized to a naive
output-zone timestamp. -/
def to_naive_utc_cell (x : Option PTimestamp) : Option PTimestamp :=
  match x with
  | none => none
  | some ts => some { wall := naive_output_wall ts, tz := none }

/-- `_to_naive_utc` applied to each of the three time columns of a row. -/
def to_naive_utc_row (r : SRow) : SRow :=
  { r with
    point_time := to_naive_utc_cell r.point_time
    start_time := to_naive_utc_cell r.start_time
    end_time := to_naive_utc_cell r.end_time }

/-- The derived sort key
`point_time.fillna(start_time).fillna(end_time)` of one (already
converted) row. -/
def sort_key (r : SRow) : Option Int :=
  (r.point_time.or (r.start_time.or r.end_time)).map PTimestamp.wall

/-- Non-strict ascending comparison of derived keys with `NaT` sorted
last (`na_position` defaults to last in `Series.sort_values`). -/
def okey_le (a b : Option Int) : Bool :=
  match a, b with
  | some x, some y => x ≤ y
  | some _, none => true
  | none, some _ => false
  | none, none => true

/-- What pandas documents for `Series.sort_values()` with the default
`kind` (quicksort): the result is a permutation of the input ordered by
the key, `NaT` last — and nothing more. In particular the relative order
of equal keys is unspecified (only the `mergesort`/`stable` kinds are
documented stable), so the sorting kernel is abstracted as a function
argument constrained by exactly this specification. -/
def SortValuesSpec (sv : List SRow → List SRow) : Prop :=
  ∀ l : List SRow,
    (sv l).Perm l ∧ (sv l).Pairwise (fun a b => okey_le (sort_key a) (sort_key b) = true)

/-- `data_converter.sort_dataframe_by_time`: empty frame returned as is;
time columns normalized; if every derived key is `NaT` the frame is
returned without reordering, otherwise the rows are reordered by the
sorting kernel `sv`, which abstracts
`sort_time.sort_values().index` followed by `df.loc[...]` (any
key-sorted permutation admissible per `SortValuesSpec`). -/
def sort_dataframe_by_time (sv : List SRow → List SRow) (rows : List SRow) : List SRow :=
  if rows.isEmpty then rows
  else
    let conv := rows.map to_naive_utc_row
    if conv.all (fun r => (sort_key r).isNone) then conv
    else sv conv

/-- One admissible sorting kernel that is not stable: reverse the rows,
then sort them by key with a stable sort, so that equal keys come out in
reversed arrival order. It satisfies everything `SortValuesSpec` (i.e.
pandas) guarantees. -/
def unstable_sort_values (l : List SRow) : List SRow :=
  l.reverse.mergeSort (fun a b => okey_le (sort_key a) (sort_key b))

/-! ## data_converter.py : combine_dataframes -/

/-- A cell value of a merged dataframe (`None` models `NaN`). -/
inductive PVal where
  | int (n : Int)
  | str (s : List Char)
  | q (x : ℚ)
deriving DecidableEq

/-- A pandas DataFrame, column-major: the number of rows (the index
length) and the named columns, each `nrows` cells long. -/
structure PDF where
  nrows : Nat
  cols : List (List Char × List (Option PVal))
deriving DecidableEq

/-- `df.dropna(axis=1, how=...)` with `how` set to drop the columns whose
cells are all missing. -/
def dropAllNACols (df : PDF) : PDF :=
  { df with cols := df.cols.filter (fun c => !(c.2.all Option.isNone)) }

/-- `df.empty`: true when either axis has length zero. -/
def pdfEmpty (df : PDF) : Bool := df.nrows == 0 || df.cols.isEmpty

/-- Column names of a frame, in order. -/
def colNames (df : PDF) : List (List Char) := df.cols.map Prod.fst

/-- Lookup of a column by name. -/
def lookupCol (df : PDF) (n : List Char) : Option (List (Option PVal)) :=
  (df.cols.find? (fun c => c.1 == n)).map Prod.snd

/-- First-occurrence deduplication of column names (the column order
`pd.concat` produces for the union of columns). -/
def dedupFirstAux (seen : List (List Char)) : List (List Char) → List (List Char)
  | [] => []
  | k :: t =>
    if seen.contains k then dedupFirstAux seen t
    else k :: dedupFirstAux (k :: seen) t

/-- First-occurrence deduplication, starting from nothing seen. -/
def dedupFirst (l : List (List Char)) : List (List Char) := dedupFirstAux [] l

/-- `pd.concat(dfs, ignore_index=True)`: rows are stacked, the column set
is the union in order of first appearance, and a frame missing a column
contributes missing cells for it. -/
def pd_concat (dfs : List PDF) : PDF :=
  { nrows := (dfs.map PDF.nrows).sum
    cols := (dedupFirst (dfs.flatMap colNames)).map (fun n =>
      (n, dfs.flatMap (fun df => (lookupCol df n).getD (List.replicate df.nrows none)))) }

/-- `data_converter.combine_dataframes`: discard empty frames, drop each
frame's all-missing columns, and concatenate what is left (empty result
when nothing is left). -/
def combine_dataframes (dfs : List PDF) : PDF :=
  if dfs.isEmpty then ⟨0, []⟩
  else
    let valid := (dfs.filter (fun df => !pdfEmpty df)).map dropAllNACols
    if valid.isEmpty then ⟨0, []⟩
    else pd_concat valid

/-! ## gpx_parser.py -/

/-- The track-internal working entity built by `parse_trackpoint` and
consumed by `classify_activity` / `calculate_speeds` / `process_track`.
Trackpoint times are `datetime` values, modelled as seconds since the
epoch. The `speed` field is absent (`none`) until `calculate_speeds`
fills it in. (The `track_name` / `track_index` / `segment_index` keys
`process_track` copies into each dict are never read back and are not
modelled.) -/
structure Trackpoint where
  latitude : Option ℚ
  longitude : Option ℚ
  elevation : Option ℚ
  point_time : Option Int
  point_index : Nat
  speed : Option ℚ
deriving DecidableEq

/-- Truthiness of an optional trackpoint time: a present `datetime` is
always truthy in Python. -/
def pyTruthyTime : Option Int → Bool
  | none => false
  | some _ => true

/-- The speed (km/h) the `calculate_speeds` loop body assigns to `curr`
from its predecessor `prev`: 0 unless both points carry truthy
coordinates (so a coordinate equal to 0.0 disables the computation) and
times and the elapsed time is positive; otherwise the distance given by
the distance function over elapsed seconds, times 3.6, clamped to
200 km/h. `dist` abstracts `haversine_distance`, whose floating-point
trigonometry has no exact rational counterpart. -/
def trackpoint_pair_speed (dist : ℚ → ℚ → ℚ → ℚ → ℚ) (prev curr : Trackpoint) : ℚ :=
  if pyTruthyQ prev.latitude && pyTruthyQ prev.longitude &&
     pyTruthyQ curr.latitude && pyTruthyQ curr.longitude &&
     pyTruthyTime prev.point_time && pyTruthyTime curr.point_time then
    let d := dist (prev.latitude.getD 0) (prev.longitude.getD 0)
             (curr.latitude.getD 0) (curr.longitude.getD 0)
    let time_diff : ℚ := ((curr.point_time.getD 0 - prev.point_time.getD 0 : Int) : ℚ)
    if 0 < time_diff then min (d / time_diff * 3.6) 200 else 0
  else 0

/-- Tail of the `calculate_speeds` loop: assign each point the pair speed
from its immediate predecessor (the loop mutates only the `speed` key, so
the predecessor's coordinates and time are its original ones). -/
def calculate_speeds_go (dist : ℚ → ℚ → ℚ → ℚ → ℚ) (prev : Trackpoint) :
    List Trackpoint → List Trackpoint
  | [] => []
  | curr :: t =>
    { curr with speed := some (trackpoint_pair_speed dist prev curr) } ::
      calculate_speeds_go dist curr t

/-- `gpx_parser.calculate_speeds`: the first point gets speed 0, each
later point the clamped pair speed from its predecessor. -/
def calculate_speeds (dist : ℚ → ℚ → ℚ → ℚ → ℚ) (tps : List Trackpoint) : List Trackpoint :=
  match tps with
  | [] => []
  | first :: rest => { first with speed := some 0 } :: calculate_speeds_go dist first rest

/-- Accumulator loop of `calculate_elevation_gain`: sum the positive
elevation deltas between consecutive points that have elevations; a point
without an elevation leaves the carried previous elevation unchanged. -/
def elevation_gain_go (acc : ℚ) (prev : Option ℚ) : List Trackpoint → ℚ
  | [] => acc
  | tp :: t =>
    match tp.elevation, prev with
    | some e, some p => elevation_gain_go (if p < e then acc + (e - p) else acc) (some e) t
    | some e, none => elevation_gain_go acc (some e) t
    | none, _ => elevation_gain_go acc prev t

/-- `gpx_parser.calculate_elevation_gain`. -/
def calculate_elevation_gain (tps : List Trackpoint) : ℚ := elevation_gain_go 0 none tps

/-- `config.GPX_CONFIG` speed thresholds (km/h). -/
def GPX_walking_max : ℚ := 4

/-- Hiking speed ceiling from `config.GPX_CONFIG`. -/
def GPX_hiking_max : ℚ := 6

/-- Running speed ceiling from `config.GPX_CONFIG`. -/
def GPX_running_max : ℚ := 15

/-- Cycling speed ceiling from `config.GPX_CONFIG`. -/
def GPX_cycling_max : ℚ := 40

/-- Driving speed floor from `config.GPX_CONFIG`. -/
def GPX_driving_min : ℚ := 40

/-- Elevation-gain floor (m) for the hiking rule, from `config.GPX_CONFIG`. -/
def GPX_hiking_min_gain : ℚ := 100

/-- Truthiness of an optional string (`None` and the empty string are
falsy). -/
def pyTruthyStr : Option (List Char) → Bool
  | none => false
  | some s => !s.isEmpty

/-- Track-name keyword sets of `classify_activity`, tier 2. -/
def mountain_keywords : List (List Char) :=
  ["山".data, "岳".data, "峰".data, "峠".data, "mountain".data, "peak".data,
   "summit".data, "登山".data, "ハイキング".data]

/-- Running keywords of tier 2. -/
def running_keywords : List (List Char) :=
  ["run".data, "running".data, "ラン".data, "ランニング".data, "ジョギング".data]

/-- Cycling keywords of tier 2. -/
def cycling_keywords : List (List Char) :=
  ["bike".data, "cycling".data, "サイクル".data, "自転車".data]

/-- Average of the strictly positive per-point speeds (0 when there is
none), as computed in tier 3 of `classify_activity`. -/
def avg_positive_speed (tps : List Trackpoint) : ℚ :=
  let speeds := (tps.map (fun tp => tp.speed.getD 0)).filter (fun s => decide (0 < s))
  if speeds.isEmpty then 0 else speeds.sum / (speeds.length : ℚ)

/-- `gpx_parser.classify_activity`: filename keywords first, then
track-name keywords, then the quantitative speed / elevation-gain
heuristic for tracks with more than one point, else `unknown`. -/
def classify_activity (filename : List Char) (track_name : Option (List Char))
    (tps : List Trackpoint) : List Char :=
  let fl := pyLower filename
  if pyInStr "yamap".data fl then "hiking".data
  else if pyInStr "run".data fl || pyInStr "running".data fl then "running".data
  else if pyInStr "bike".data fl || pyInStr "cycling".data fl then "cycling".data
  else if pyInStr "walk".data fl || pyInStr "walking".data fl then "walking".data
  else if pyTruthyStr track_name &&
          mountain_keywords.any (fun k => pyInStr k (pyLower (track_name.getD []))) then
    "hiking".data
  else if pyTruthyStr track_name &&
          running_keywords.any (fun k => pyInStr k (pyLower (track_name.getD []))) then
    "running".data
  else if pyTruthyStr track_name &&
          cycling_keywords.any (fun k => pyInStr k (pyLower (track_name.getD []))) then
    "cycling".data
  else if 1 < tps.length then
    let avg_speed := avg_positive_speed tps
    let elevation_gain := calculate_elevation_gain tps
    if avg_speed < GPX_hiking_max ∧ GPX_hiking_min_gain < elevation_gain then "hiking".data
    else if avg_speed < GPX_walking_max then "walking".data
    else if avg_speed < GPX_running_max then "running".data
    else if avg_speed < GPX_cycling_max then "cycling".data
    else if GPX_driving_min ≤ avg_speed then "driving".data
    else "unknown".data
  else "unknown".data

/-- The `semantic_mapping` dict of `assign_semantic_type`, with its
`.get(..., default)` fallback to `Other`. -/
def semantic_mapping (activity_type : List Char) : List Char :=
  if activity_type == "hiking".data then "Recreation".data
  else if activity_type == "running".data then "Sports".data
  else if activity_type == "cycling".data then "Sports".data
  else if activity_type == "walking".data then "Recreation".data
  else if activity_type == "driving".data then "Transportation".data
  else if activity_type == "unknown".data then "Other".data
  else "Other".data

/-- The mountain-token list of the `assign_semantic_type` override (note:
it differs from `mountain_keywords` and is matched against the raw track
name, not lowercased). -/
def semantic_mountain_tokens : List (List Char) :=
  ["山".data, "岳".data, "峰".data, "高原".data, "峠".data]

/-- `gpx_parser.assign_semantic_type`: a truthy track name containing a
mountain token forces `Mountain`; otherwise the fixed mapping. -/
def assign_semantic_type (activity_type : List Char) (track_name : Option (List Char)) :
    List Char :=
  if pyTruthyStr track_name &&
     semantic_mountain_tokens.any (fun m => pyInStr m (track_name.getD [])) then
    "Mountain".data
  else semantic_mapping activity_type

/-- `gpx_parser.detect_data_source`. -/
def detect_data_source (filename : List Char) : List Char :=
  let fl := pyLower filename
  if pyInStr "yamap".data fl then "yamap".data
  else if pyInStr "garmin".data fl || pyInStr "activity_".data fl then "garmin".data
  else "gpx".data

/-! ### XML model for the GPX / KML trees -/

/-- A parsed XML element (an `ElementTree` / `lxml` node): tag, attributes,
children, text. Namespace prefixes are dropped: the sources always search
within the one namespace of the document root, so matching on local tag
names is equivalent. -/
inductive XmlElem where
  | mk (tag : List Char) (attrs : List (List Char × List Char))
       (children : List XmlElem) (text : Option (List Char))

/-- Tag of an element. -/
def XmlElem.tag : XmlElem → List Char
  | .mk t _ _ _ => t

/-- Attribute list of an element. -/
def XmlElem.attrs : XmlElem → List (List Char × List Char)
  | .mk _ a _ _ => a

/-- Children of an element. -/
def XmlElem.children : XmlElem → List XmlElem
  | .mk _ _ c _ => c

/-- Text of an element (`None` for an empty element). -/
def XmlElem.text : XmlElem → Option (List Char)
  | .mk _ _ _ tx => tx

/-- `elem.get(name)`: attribute lookup. -/
def XmlElem.attr (e : XmlElem) (n : List Char) : Option (List Char) :=
  ((e.attrs).find? (fun p => p.1 == n)).map Prod.snd

mutual

/-- `root.findall(".//tag")`: all descendants (including the root itself,
as ElementTree does for `.//` from an interior search root's children —
here only ever applied where the root itself never matches) with the
given local tag, in document order. -/
def findDesc (tag : List Char) : XmlElem → List XmlElem
  | .mk t a ch tx =>
    (if t == tag then [XmlElem.mk t a ch tx] else []) ++ findDescList tag ch

/-- `findDesc` over a forest. -/
def findDescList (tag : List Char) : List XmlElem → List XmlElem
  | [] => []
  | x :: xs => findDesc tag x ++ findDescList tag xs

end

/-- `elem.findall("tag")`: the direct children with the given tag. -/
def findChildren (tag : List Char) (e : XmlElem) : List XmlElem :=
  e.children.filter (fun c => c.tag == tag)

/-- `elem.find("tag")`: the first direct child with the given tag. -/
def findChild (tag : List Char) (e : XmlElem) : Option XmlElem :=
  e.children.find? (fun c => c.tag == tag)

/-- Decimal digits of a natural number (for the `Track {n}` /
`Waypoint {n}` default names). -/
def natChars : Nat → List Char :=
  fun n => go (n + 1) n
where
  /-- Fuel-driven digit expansion. -/
  go : Nat → Nat → List Char
  | 0, _ => []
  | _ + 1, n =>
    if n < 10 then [Char.ofNat (48 + n)]
    else go n (n / 10) ++ [Char.ofNat (48 + n % 10)]

/-- A canonical record emitted by the GPX parser (`process_track` /
`process_waypoint` build plain dicts; times are `datetime` values modelled
as epoch seconds). The waypoint-only description key is modelled as an
always-present optional field. -/
structure GpxRec where
  type_ : List Char
  start_time : Option Int
  end_time : Option Int
  point_time : Option Int
  latitude : Option ℚ
  longitude : Option ℚ
  visit_probability : Option ℚ
  visit_placeId : Option (List Char)
  visit_semanticType : Option (List Char)
  activity_distanceMeters : Option ℚ
  activity_type : Option (List Char)
  activity_probability : Option ℚ
  username : List Char
  gpx_data_source : List Char
  gpx_track_name : Option (List Char)
  gpx_elevation : Option ℚ
  gpx_speed : Option ℚ
  gpx_point_sequence : Nat
  gpx_description : Option (List Char)
deriving DecidableEq

/-- `gpx_parser.parse_trackpoint`: needs parsable `lat` / `lon`
attributes; a present `ele` child must parse or the whole point is
dropped (`ValueError` reaches the function's own `except`); the `time`
child is parsed in an inner `try`, so an unparsable or absent time only
nulls `point_time`. `isoP` abstracts `datetime.fromisoformat` (applied
after the `Z` suffix is rewritten to a `+00:00` offset), `none` modelling
a raise. -/
def parse_trackpoint (isoP : List Char → Option Int) (pt : XmlElem) (point_index : Nat) :
    Option Trackpoint :=
  match pt.attr "lat".data, pt.attr "lon".data with
  | some las, some los =>
    match pyFloatChars las, pyFloatChars los with
    | some lat, some lon =>
      let eleRes : Except Unit (Option ℚ) :=
        match findChild "ele".data pt with
        | none => .ok none
        | some ee =>
          match ee.text with
          | none => .error ()
          | some et =>
            match pyFloatChars et with
            | some e => .ok (some e)
            | none => .error ()
      match eleRes with
      | .error _ => none
      | .ok elevation =>
        let point_time :=
          match findChild "time".data pt with
          | none => none
          | some te =>
            match te.text with
            | none => none
            | some s => isoP (pyReplace s "Z".data "+00:00".data)
        some { latitude := some lat, longitude := some lon, elevation := elevation,
               point_time := point_time, point_index := point_index, speed := none }
    | _, _ => none
  | _, _ => none

/-- All trackpoints of a `<trk>`: every `<trkpt>` of every `<trkseg>`, the
point index counting positions within its segment (dropped points still
advance the index, as `enumerate` does). -/
def track_all_trackpoints (isoP : List Char → Option Int) (trk : XmlElem) : List Trackpoint :=
  (findDesc "trkseg".data trk).flatMap (fun seg =>
    ((findChildren "trkpt".data seg).enum).filterMap (fun p =>
      parse_trackpoint isoP p.2 p.1))

/-- `gpx_parser.process_track`: flatten the segments, derive the track
time bounds from the truthy point times, classify once per track, compute
speeds, and emit one `gpx_trackpoint` record per point. -/
def process_track (dist : ℚ → ℚ → ℚ → ℚ → ℚ) (isoP : List Char → Option Int)
    (trk : XmlElem) (track_idx : Nat) (username data_source filename : List Char) :
    List GpxRec :=
  let track_name : Option (List Char) :=
    match findChild "name".data trk with
    | some e => e.text
    | none => some ("Track ".data ++ natChars (track_idx + 1))
  let all_tps := track_all_trackpoints isoP trk
  if all_tps.isEmpty then []
  else
    let valid_times := all_tps.filterMap Trackpoint.point_time
    let start_time := valid_times.min?
    let end_time := valid_times.max?
    let activity_type := classify_activity filename track_name all_tps
    let semantic_type := assign_semantic_type activity_type track_name
    (calculate_speeds dist all_tps).map (fun tp =>
      { type_ := "gpx_trackpoint".data
        start_time := start_time, end_time := end_time, point_time := tp.point_time
        latitude := tp.latitude, longitude := tp.longitude
        visit_probability := none
        visit_placeId := track_name
        visit_semanticType := some semantic_type
        activity_distanceMeters := tp.elevation
        activity_type := some activity_type
        activity_probability :=
          (if pyTruthyQ tp.speed then some (tp.speed.getD 0 / 50) else none)
        username := username
        gpx_data_source := data_source
        gpx_track_name := track_name
        gpx_elevation := tp.elevation
        gpx_speed := tp.speed
        gpx_point_sequence := tp.point_index
        gpx_description := none })

/-- `gpx_parser.process_waypoint`: parsable `lat` / `lon` required, a
present but unparsable `ele` fails the waypoint (outer `except`), the
`time` child is guarded by an inner `try`. -/
def process_waypoint (isoP : List Char → Option Int) (wpt : XmlElem) (wpt_idx : Nat)
    (username data_source : List Char) : Option GpxRec :=
  match wpt.attr "lat".data, wpt.attr "lon".data with
  | some las, some los =>
    match pyFloatChars las, pyFloatChars los with
    | some lat, some lon =>
      let wpt_name : Option (List Char) :=
        match findChild "name".data wpt with
        | some e => e.text
        | none => some ("Waypoint ".data ++ natChars (wpt_idx + 1))
      let description : Option (List Char) :=
        match findChild "desc".data wpt with
        | some e => e.text
        | none => none
      let eleRes : Except Unit (Option ℚ) :=
        match findChild "ele".data wpt with
        | none => .ok none
        | some ee =>
          match ee.text with
          | none => .error ()
          | some et =>
            match pyFloatChars et with
            | some e => .ok (some e)
            | none => .error ()
      match eleRes with
      | .error _ => none
      | .ok elevation =>
        let point_time :=
          match findChild "time".data wpt with
          | none => none
          | some te =>
            match te.text with
            | none => none
            | some s => isoP (pyReplace s "Z".data "+00:00".data)
        some { type_ := "gpx_waypoint".data
               start_time := point_time, end_time := point_time, point_time := point_time
               latitude := some lat, longitude := some lon
               visit_probability := none
               visit_placeId := wpt_name
               visit_semanticType := some "Waypoint".data
               activity_distanceMeters := elevation
               activity_type := some "waypoint".data
               activity_probability := none
               username := username
               gpx_data_source := data_source
               gpx_track_name := wpt_name
               gpx_elevation := elevation
               gpx_speed := none
               gpx_point_sequence := wpt_idx
               gpx_description := description }
    | _, _ => none
  | _, _ => none

/-- `gpx_parser.parse_gpx_content`: `none` models content on which
`ET.fromstring` raises (the surrounding `try` returns an empty list);
otherwise process every track and every waypoint of the tree. -/
def parse_gpx_content (dist : ℚ → ℚ → ℚ → ℚ → ℚ) (isoP : List Char → Option Int)
    (doc : Option XmlElem) (username filename : List Char) : List GpxRec :=
  match doc with
  | none => []
  | some root =>
    let data_source := detect_data_source filename
    let trackRecs := (findDesc "trk".data root).enum.flatMap (fun p =>
      process_track dist isoP p.2 p.1 username data_source filename)
    let wptRecs := (findDesc "wpt".data root).enum.filterMap (fun p =>
      process_waypoint isoP p.2 p.1 username data_source)
    trackRecs ++ wptRecs

/-! ## kml_parser.py -/

/-- One record of the KML/KMZ parser: raw time strings, parsed coordinates.
The source builds dicts whose key sets differ per extraction path; absent
keys are modelled as `none`. -/
structure KmlRec where
  latitude : ℚ
  longitude : ℚ
  elevation : Option ℚ
  point_time : Option (List Char)
  start_time : Option (List Char)
  end_time : Option (List Char)
  type_ : List Char
  username : Option (List Char)
deriving DecidableEq

/-- One `when`/`coord` pair of a `gx:Track`: a `coord` element without
text raises (`None.split()`, an `AttributeError` the source's
`except ValueError` does not catch); otherwise split on whitespace and
parse all fields as floats, skipping the pair on any `ValueError`
(wrong arity or unparsable field). -/
def gx_pair_records (acc : List KmlRec) (wc : Option (List Char) × Option (List Char)) :
    Except PyErr (List KmlRec) :=
  match wc.2 with
  | none => .error .attrErr
  | some cs =>
    match pySplitWs cs with
    | a :: b :: rest =>
      match pyFloatChars a, pyFloatChars b, rest.mapM pyFloatChars with
      | some lon, some lat, some eles =>
        .ok (acc ++ [{ latitude := lat, longitude := lon, elevation := eles.head?,
                       point_time := wc.1, start_time := none, end_time := none,
                       type_ := "kml_gx_track".data, username := none }])
      | _, _, _ => .ok acc
    | _ => .ok acc

/-- `kml_parser._extract_gx_track`: every `gx:Track` descendant, its
`when` texts zipped with its `coord` texts (`zip` truncating to the
shorter list when the counts mismatch). -/
def extract_gx_track (root : XmlElem) : Except PyErr (List KmlRec) :=
  (findDesc "Track".data root).foldlM (fun acc t => do
    let whens := (findChildren "when".data t).map XmlElem.text
    let coords := (findChildren "coord".data t).map XmlElem.text
    (whens.zip coords).foldlM gx_pair_records acc) []

/-- `elem.find("a/b")`: the first `b` child of an `a` child, in document
order over the `a` children. -/
def pathFind (a b : List Char) (e : XmlElem) : Option XmlElem :=
  ((findChildren a e).flatMap (findChildren b)).head?

/-- `kml_parser._parse_coordinates_text`: whitespace-separated
`lon,lat[,ele]` tokens; a token is skipped when it has no second field or
any of its (up to three) fields fails to parse. -/
def parse_coordinates_text (text : Option (List Char)) : List (ℚ × ℚ × Option ℚ) :=
  match text with
  | none => []
  | some s =>
    if s.isEmpty then []
    else
      (pySplitWs s).filterMap (fun token =>
        match pySplit token ",".data with
        | [] => none
        | p0 :: rest =>
          match pyFloatChars p0 with
          | none => none
          | some lon =>
            match rest with
            | [] => none
            | p1 :: rest2 =>
              match pyFloatChars p1 with
              | none => none
              | some lat =>
                match rest2 with
                | [] => some (lon, lat, none)
                | p2 :: _ =>
                  match pyFloatChars p2 with
                  | none => none
                  | some ele => some (lon, lat, some ele))

/-- Build the timed `kml_point` / `kml_linestring` records of one
geometry's `coordinates` element. -/
def timedGeomRecs (pt st en : Option (List Char)) (ty : List Char)
    (coords : XmlElem) : List KmlRec :=
  (parse_coordinates_text coords.text).map (fun t =>
    { latitude := t.2.1, longitude := t.1, elevation := t.2.2,
      point_time := pt, start_time := st, end_time := en,
      type_ := ty, username := none })

/-- `kml_parser._extract_placemark_with_times`: for each `Placemark`
descendant carrying a truthy `TimeStamp/when`, `TimeSpan/begin` or
`TimeSpan/end` text, expand every vertex of its `Point` and `LineString`
coordinates into a timed record. -/
def extract_placemark_with_times (root : XmlElem) : List KmlRec :=
  (findDesc "Placemark".data root).flatMap (fun pm =>
    let point_time := (pathFind "TimeStamp".data "when".data pm).bind XmlElem.text
    let start_time := (pathFind "TimeSpan".data "begin".data pm).bind XmlElem.text
    let end_time := (pathFind "TimeSpan".data "end".data pm).bind XmlElem.text
    if !(pyTruthyStr point_time || pyTruthyStr start_time || pyTruthyStr end_time) then []
    else
      ((findDesc "Point".data pm).flatMap (findChildren "coordinates".data)).flatMap
        (timedGeomRecs point_time start_time end_time "kml_point".data) ++
      ((findDesc "LineString".data pm).flatMap (findChildren "coordinates".data)).flatMap
        (timedGeomRecs point_time start_time end_time "kml_linestring".data))

/-- `kml_parser._extract_geometries_without_times`: untimed expansion of
every `Point`, then every `LineString`, below a `Placemark`. -/
def extract_geometries_without_times (root : XmlElem) : List KmlRec :=
  ((findDesc "Placemark".data root).flatMap (fun pm =>
    (findDesc "Point".data pm).flatMap (findChildren "coordinates".data))).flatMap
    (timedGeomRecs none none none "kml_point".data) ++
  ((findDesc "Placemark".data root).flatMap (fun pm =>
    (findDesc "LineString".data pm).flatMap (findChildren "coordinates".data))).flatMap
    (timedGeomRecs none none none "kml_linestring".data)

/-- `kml_parser.parse_kml_file`, from the point where the document bytes
have been read (file discovery and the KMZ container are out of scope):
`doc = none` models bytes on which `etree.fromstring` raises
`XMLSyntaxError` — `parse_kml_file` has no handler for it, so the error
propagates to the caller. The third extraction tier (the `fastkml`
library walk) is abstracted as the function argument `fastkml`. -/
def parse_kml_file (fastkml : XmlElem → List KmlRec) (doc : Option XmlElem)
    (username : Option (List Char)) : Except PyErr (List KmlRec) :=
  match doc with
  | none => .error .xmlSyntaxErr
  | some root => do
    let gx ← extract_gx_track root
    let records :=
      if !gx.isEmpty then gx
      else
        let timed := extract_placemark_with_times root
        if !timed.isEmpty then timed
        else
          let simple := fastkml root
          if !simple.isEmpty then simple
          else extract_geometries_without_times root
    match username with
    | some u => pure (records.map (fun r => { r with username := some u }))
    | none => pure records

/-! ## Theorems settling the claims -/

/-- C4: time normalization agreement across representations: a naive
timestamp and the same wall clock localized to the input zone normalize to
the same naive instant; a naive timestamp is interpreted as input-zone and
converted to the output zone; an aware timestamp is converted to the
output zone and stripped; empty or unparsable input normalizes to null. -/
theorem claim_C4_time_normalization :
    (∀ w : Int,
      convert_timestamp_to_utc (.parsed ⟨w, none⟩) =
        convert_timestamp_to_utc (.parsed ⟨w, some INPUT_TZ_OFFSET_MIN⟩))
    ∧ (∀ w : Int,
      convert_timestamp_to_utc (.parsed ⟨w, none⟩) =
        some (w - INPUT_TZ_OFFSET_MIN + OUTPUT_TZ_OFFSET_MIN))
    ∧ (∀ w o : Int,
      convert_timestamp_to_utc (.parsed ⟨w, some o⟩) =
        some (w - o + OUTPUT_TZ_OFFSET_MIN))
    ∧ convert_timestamp_to_utc .empty = none
    ∧ convert_timestamp_to_utc .unparsable = none := by
  refine ⟨fun w => rfl, fun w => rfl, fun w o => rfl, rfl, rfl⟩

/-- C9: the `geo:`-prefixed form parses to its two coordinates; the
degree-decorated form (parsed by the Android coordinate expression)
parses to its two coordinates; any string splitting into fewer than two
comma-separated fields parses to `(None, None)` without raising. -/
theorem claim_C9_coordinate_parsing :
    extract_geo_coordinates (.str "geo:35.639772,139.670222".data) =
      (some (35.639772 : ℚ), some (139.670222 : ℚ))
    ∧ parse_latlng_degrees (.str "35.6°, 139.7°".data) = (some (35.6 : ℚ), some (139.7 : ℚ))
    ∧ (∀ s : List Char,
        (pySplit (pyReplace s "geo:".data []) ",".data).length < 2 →
        extract_geo_coordinates (.str s) = (none, none)) := by
  refine ⟨by with_unfolding_all rfl, by with_unfolding_all rfl, ?_⟩
  intro s h
  unfold extract_geo_coordinates
  rcases hsp : pySplit (pyReplace s "geo:".data []) ",".data with - | ⟨a, tl⟩
  · by_cases hc : s.isEmpty <;> simp [hc, hsp]
  · rcases tl with - | ⟨b, tl2⟩
    · by_cases hc : s.isEmpty <;> simp [hc, hsp]
    · rw [hsp] at h
      simp at h
      omega

/-- Witness for C9: the string `x` has a single comma-field and parses to
`(None, None)`. -/
theorem claim_C9_coordinate_parsing_witness :
    (pySplit (pyReplace "x".data "geo:".data []) ",".data).length < 2
    ∧ extract_geo_coordinates (.str "x".data) = (none, none) :=
  ⟨by decide, claim_C9_coordinate_parsing.2.2 "x".data (by decide)⟩

/-- C7: a truthy track name containing one of the mountain tokens forces
the `Mountain` semantic type regardless of the activity label; otherwise
the fixed mapping hiking/walking to Recreation, running/cycling to
Sports, driving to Transportation, unknown to Other applies. -/
theorem claim_C7_semantic_type :
    (∀ (label : List Char) (tn : Option (List Char)),
      pyTruthyStr tn = true →
      semantic_mountain_tokens.any (fun m => pyInStr m (tn.getD [])) = true →
      assign_semantic_type label tn = "Mountain".data)
    ∧ (∀ tn : Option (List Char),
      (pyTruthyStr tn && semantic_mountain_tokens.any (fun m => pyInStr m (tn.getD []))) = false →
      assign_semantic_type "hiking".data tn = "Recreation".data
      ∧ assign_semantic_type "walking".data tn = "Recreation".data
      ∧ assign_semantic_type "running".data tn = "Sports".data
      ∧ assign_semantic_type "cycling".data tn = "Sports".data
      ∧ assign_semantic_type "driving".data tn = "Transportation".data
      ∧ assign_semantic_type "unknown".data tn = "Other".data) := by
  constructor
  · intro label tn h1 h2
    simp [assign_semantic_type, h1, h2]
  · intro tn h
    refine ⟨?_, ?_, ?_, ?_, ?_, ?_⟩ <;>
      simp [assign_semantic_type, h, semantic_mapping]

/-- Witness for C7: a mountain-marked track name forces `Mountain` over a
driving label, and a plain name maps driving to Transportation. -/
theorem claim_C7_semantic_type_witness :
    assign_semantic_type "driving".data (some "乗鞍高原".data) = "Mountain".data
    ∧ assign_semantic_type "driving".data (some "drive".data) = "Transportation".data :=
  ⟨claim_C7_semantic_type.1 "driving".data (some "乗鞍高原".data) (by decide) (by decide),
   (claim_C7_semantic_type.2 (some "drive".data) (by decide)).2.2.2.2.1⟩

/-- C1 counterexample: on malformed XML (content `etree.fromstring`
rejects) the KML/KMZ parser does not return an empty list: it raises, the
XML syntax error escaping to the caller. -/
theorem claim_C1_counterexample :
    parse_kml_file (fun _ => []) none none = .error PyErr.xmlSyntaxErr := rfl

/-- C1 (amended): the GPX parser returns an empty list for malformed XML
and for well-formed XML with no `trk` / `wpt` elements, and the
JSON-timeline parser returns an empty list for any input of unrecognized
shape, neither letting an error escape; the KML/KMZ parser, by contrast,
raises an XML syntax error on malformed XML (contained only at the
caller's per-file boundary). -/
theorem claim_C1_malformed_input :
    (∀ dist isoP u f, parse_gpx_content dist isoP none u f = [])
    ∧ (∀ dist isoP root u f,
        findDesc "trk".data root = [] →
        findDesc "wpt".data root = [] →
        parse_gpx_content dist isoP (some root) u f = [])
    ∧ (∀ (j : Json) (u : List Char) (e : PyErr),
        detect_format j = .error e → parse_json_data j u = [])
    ∧ (∀ fk u, parse_kml_file fk none u = .error PyErr.xmlSyntaxErr) := by
  refine ⟨fun dist isoP u f => rfl, ?_, ?_, fun fk u => rfl⟩
  · intro dist isoP root u f h1 h2
    simp [parse_gpx_content, h1, h2]
  · intro j u e h
    simp [parse_json_data, h, Bind.bind, Except.bind]

/-- Witness for C1: a single-element XML tree with neither tracks nor
waypoints parses to the empty record list, and a JSON number is an
unrecognized shape parsed to the empty record list. -/
theorem claim_C1_malformed_input_witness :
    parse_gpx_content (fun _ _ _ _ => 0) (fun _ => none)
      (some (.mk "html".data [] [] none)) "u".data "f.gpx".data = []
    ∧ parse_json_data (.num 3) "u".data = [] :=
  ⟨claim_C1_malformed_input.2.1 _ _ _ _ _ rfl rfl,
   claim_C1_malformed_input.2.2.1 (.num 3) "u".data .valueErr (by with_unfolding_all rfl)⟩

/-- C3: a non-empty JSON list whose first element carries the key
`startTime` is detected as the iPhone dialect and routed to the iPhone
path; a mapping carrying `semanticSegments` is detected as the Android
dialect and routed to the Android path; any shape the detector rejects —
the empty list included — parses to an empty record list with no error
escaping `parse_json_data`. -/
theorem claim_C3_dialect_detection :
    (∀ (kvs : List (List Char × Json)) (rest : List Json) (u : List Char),
      kvs.any (fun p => p.1 == "startTime".data) = true →
      detect_format (.arr (.obj kvs :: rest)) = .ok "iphone".data
      ∧ parse_json_data (.arr (.obj kvs :: rest)) u =
          (match parse_iphone_data (.arr (.obj kvs :: rest)) u with
           | .ok recs => recs
           | .error _ => []))
    ∧ (∀ (kvs : List (List Char × Json)) (u : List Char),
      kvs.any (fun p => p.1 == "semanticSegments".data) = true →
      detect_format (.obj kvs) = .ok "android".data
      ∧ parse_json_data (.obj kvs) u =
          (match parse_android_data (.obj kvs) u with
           | .ok recs => recs
           | .error _ => []))
    ∧ (∀ (j : Json) (u : List Char) (e : PyErr),
        detect_format j = .error e → parse_json_data j u = [])
    ∧ (∀ u : List Char, parse_json_data (.arr []) u = []) := by
  have hne : ("iphone".data == "android".data) = false := by decide
  have hie : ("iphone".data == "iphone".data) = true := by decide
  have hae : ("android".data == "android".data) = true := by decide
  refine ⟨?_, ?_, ?_, fun u => rfl⟩
  · intro kvs rest u h
    have hdet : detect_format (.arr (.obj kvs :: rest)) = .ok "iphone".data := by
      simp [detect_format, pyContains, h, Bind.bind, Except.bind, Pure.pure, Except.pure]
    refine ⟨hdet, ?_⟩
    simp [parse_json_data, hdet, Bind.bind, Except.bind, hne, hie]
  · intro kvs u h
    have hdet : detect_format (.obj kvs) = .ok "android".data := by
      simp [detect_format, pyContains, h, Bind.bind, Except.bind, Pure.pure, Except.pure]
    refine ⟨hdet, ?_⟩
    simp [parse_json_data, hdet, Bind.bind, Except.bind, hae]
  · intro j u e h
    simp [parse_json_data, h, Bind.bind, Except.bind]

/-- Witness for C3: a one-segment iPhone document is routed to the iPhone
path, a one-segment Android document to the Android path. -/
theorem claim_C3_dialect_detection_witness :
    detect_format (.arr [.obj [("startTime".data, .str "T".data)]]) = .ok "iphone".data
    ∧ detect_format (.obj [("semanticSegments".data, .arr [])]) = .ok "android".data :=
  ⟨(claim_C3_dialect_detection.1 [("startTime".data, .str "T".data)] [] [] (by decide)).1,
   (claim_C3_dialect_detection.2.1 [("semanticSegments".data, .arr [])] [] (by decide)).1⟩

/-- The `calculate_speeds` loop, tail part, computes exactly the pairwise
speeds of consecutive points. -/
theorem calculate_speeds_go_zip (dist : ℚ → ℚ → ℚ → ℚ → ℚ) (prev : Trackpoint)
    (l : List Trackpoint) :
    calculate_speeds_go dist prev l =
      ((prev :: l).zip l).map (fun pc =>
        { pc.2 with speed := some (trackpoint_pair_speed dist pc.1 pc.2) }) := by
  induction l generalizing prev with
  | nil => rfl
  | cons c t ih => simp [calculate_speeds_go, ih]

/-- C5: the first point of a track gets speed 0 and every later point the
pair speed from its immediate predecessor; for a valid pair with positive
elapsed time that pair speed is the distance over elapsed seconds scaled
to km/h and clamped at 200; the speed never exceeds 200, and a pair whose
raw speed exceeds 200 km/h reports exactly 200. -/
theorem claim_C5_speed_clamp :
    (∀ (dist : ℚ → ℚ → ℚ → ℚ → ℚ) (first : Trackpoint) (rest : List Trackpoint),
      calculate_speeds dist (first :: rest) =
        { first with speed := some 0 } ::
          ((first :: rest).zip rest).map (fun pc =>
            { pc.2 with speed := some (trackpoint_pair_speed dist pc.1 pc.2) }))
    ∧ (∀ (dist : ℚ → ℚ → ℚ → ℚ → ℚ) (prev curr : Trackpoint),
        (pyTruthyQ prev.latitude && pyTruthyQ prev.longitude &&
         pyTruthyQ curr.latitude && pyTruthyQ curr.longitude &&
         pyTruthyTime prev.point_time && pyTruthyTime curr.point_time) = true →
        (0 : ℚ) < ((curr.point_time.getD 0 - prev.point_time.getD 0 : Int) : ℚ) →
        trackpoint_pair_speed dist prev curr =
          min (dist (prev.latitude.getD 0) (prev.longitude.getD 0)
                 (curr.latitude.getD 0) (curr.longitude.getD 0) /
               ((curr.point_time.getD 0 - prev.point_time.getD 0 : Int) : ℚ) * 3.6) 200)
    ∧ (∀ (dist : ℚ → ℚ → ℚ → ℚ → ℚ) (prev curr : Trackpoint),
        trackpoint_pair_speed dist prev curr ≤ 200)
    ∧ (∀ (dist : ℚ → ℚ → ℚ → ℚ → ℚ) (prev curr : Trackpoint),
        (pyTruthyQ prev.latitude && pyTruthyQ prev.longitude &&
         pyTruthyQ curr.latitude && pyTruthyQ curr.longitude &&
         pyTruthyTime prev.point_time && pyTruthyTime curr.point_time) = true →
        (0 : ℚ) < ((curr.point_time.getD 0 - prev.point_time.getD 0 : Int) : ℚ) →
        (200 : ℚ) < dist (prev.latitude.getD 0) (prev.longitude.getD 0)
                 (curr.latitude.getD 0) (curr.longitude.getD 0) /
               ((curr.point_time.getD 0 - prev.point_time.getD 0 : Int) : ℚ) * 3.6 →
        trackpoint_pair_speed dist prev curr = 200) := by
  have hdef : ∀ (dist : ℚ → ℚ → ℚ → ℚ → ℚ) (prev curr : Trackpoint),
      trackpoint_pair_speed dist prev curr =
        if (pyTruthyQ prev.latitude && pyTruthyQ prev.longitude &&
            pyTruthyQ curr.latitude && pyTruthyQ curr.longitude &&
            pyTruthyTime prev.point_time && pyTruthyTime curr.point_time) = true then
          (if (0 : ℚ) < ((curr.point_time.getD 0 - prev.point_time.getD 0 : Int) : ℚ) then
            min (dist (prev.latitude.getD 0) (prev.longitude.getD 0)
                   (curr.latitude.getD 0) (curr.longitude.getD 0) /
                 ((curr.point_time.getD 0 - prev.point_time.getD 0 : Int) : ℚ) * 3.6) 200
          else 0)
        else 0 := fun dist prev curr => rfl
  have hformula : ∀ (dist : ℚ → ℚ → ℚ → ℚ → ℚ) (prev curr : Trackpoint),
      (pyTruthyQ prev.latitude && pyTruthyQ prev.longitude &&
       pyTruthyQ curr.latitude && pyTruthyQ curr.longitude &&
       pyTruthyTime prev.point_time && pyTruthyTime curr.point_time) = true →
      (0 : ℚ) < ((curr.point_time.getD 0 - prev.point_time.getD 0 : Int) : ℚ) →
      trackpoint_pair_speed dist prev curr =
        min (dist (prev.latitude.getD 0) (prev.longitude.getD 0)
               (curr.latitude.getD 0) (curr.longitude.getD 0) /
             ((curr.point_time.getD 0 - prev.point_time.getD 0 : Int) : ℚ) * 3.6) 200 := by
    intro dist prev curr hv ht
    rw [hdef, if_pos hv, if_pos ht]
  refine ⟨?_, hformula, ?_, ?_⟩
  · intro dist first rest
    simp [calculate_speeds, calculate_speeds_go_zip]
  · intro dist prev curr
    rw [hdef]
    split
    · split
      · exact min_le_right _ _
      · norm_num
    · norm_num
  · intro dist prev curr hv ht hfast
    rw [hformula dist prev curr hv ht]
    exact min_eq_right (le_of_lt hfast)

/-- Witness for C5: two points 100000 m apart with 600 elapsed seconds
imply 600 km/h and report exactly 200. -/
theorem claim_C5_speed_clamp_witness :
    trackpoint_pair_speed (fun _ _ _ _ => 100000)
      ⟨some 35, some 139, none, some 0, 0, none⟩
      ⟨some 36, some 139, none, some 600, 1, none⟩ = 200 :=
  claim_C5_speed_clamp.2.2.2 (fun _ _ _ _ => 100000)
    ⟨some 35, some 139, none, some 0, 0, none⟩
    ⟨some 36, some 139, none, some 600, 1, none⟩
    (by with_unfolding_all rfl)
    (of_decide_eq_true (by with_unfolding_all rfl))
    (of_decide_eq_true (by with_unfolding_all rfl))

/-- Dropping all-missing columns does not change the row count. -/
theorem dropAllNACols_nrows (df : PDF) : (dropAllNACols df).nrows = df.nrows := rfl

/-- Deduplication only keeps names that were present. -/
theorem dedupFirstAux_subset :
    ∀ (l seen : List (List Char)) (n : List Char), n ∈ dedupFirstAux seen l → n ∈ l := by
  intro l
  induction l with
  | nil => intro seen n h; simp [dedupFirstAux] at h
  | cons k t ih =>
    intro seen n h
    rw [dedupFirstAux] at h
    split at h
    · exact List.mem_cons_of_mem _ (ih _ _ h)
    · rcases List.mem_cons.mp h with rfl | hm
      · exact List.mem_cons_self _ _
      · exact List.mem_cons_of_mem _ (ih _ _ hm)

/-- The column names `pd_concat` produces are the deduplicated union of
its inputs' column names. -/
theorem pd_concat_colNames (dfs : List PDF) :
    colNames (pd_concat dfs) = dedupFirst (dfs.flatMap colNames) := by
  simp only [pd_concat, colNames, List.map_map]
  exact List.map_id'' (fun _ => rfl) _

/-- An empty frame of batch shape (rows imply columns) has no rows. -/
theorem pdfEmpty_nrows_eq_zero (df : PDF) (hsh : 0 < df.nrows → df.cols ≠ [])
    (he : pdfEmpty df = true) : df.nrows = 0 := by
  rcases Bool.or_eq_true _ _ ▸ he with h0 | hc
  · simpa using h0
  · by_contra hne
    exact (hsh (Nat.pos_of_ne_zero hne)) (List.isEmpty_iff.mp (by simpa using hc))

/-- Discarding empty frames preserves the total row count of frames that
satisfy the batch shape (a frame with rows has columns). -/
theorem filter_nonempty_nrows_sum (dfs : List PDF)
    (h : ∀ df ∈ dfs, 0 < df.nrows → df.cols ≠ []) :
    (((dfs.filter (fun df => !pdfEmpty df)).map PDF.nrows).sum)
      = (dfs.map PDF.nrows).sum := by
  induction dfs with
  | nil => rfl
  | cons df t ih =>
    have ht := fun d hd => h d (List.mem_cons_of_mem _ hd)
    rw [List.filter_cons]
    by_cases he : pdfEmpty df = true
    · have hn : df.nrows = 0 := pdfEmpty_nrows_eq_zero df (h df (List.mem_cons_self _ _)) he
      simp [he, ih ht, hn]
    · simp [he, ih ht]

/-- C8: empty batches are discarded by the merge; a column that is
all-missing in every batch is absent from the merged frame; the merged
row count is the sum of the batch row counts (for batches of record
shape: rows imply columns); and the two-batch regression case merges into
4 rows with `A` dropped and `B`, `C` preserved in place. -/
theorem claim_C8_combine_dataframes :
    (∀ (e : PDF) (dfs : List PDF), pdfEmpty e = true →
      combine_dataframes (e :: dfs) = combine_dataframes dfs)
    ∧ (∀ dfs : List PDF, (∀ df ∈ dfs, 0 < df.nrows → df.cols ≠ []) →
        (combine_dataframes dfs).nrows = (dfs.map PDF.nrows).sum)
    ∧ (∀ (dfs : List PDF) (n : List Char),
        (∀ df ∈ dfs, ∀ c ∈ df.cols, c.1 = n → c.2.all Option.isNone = true) →
        ¬ n ∈ colNames (combine_dataframes dfs))
    ∧ combine_dataframes
        [⟨2, [("A".data, [none, none]), ("B".data, [some (.int 1), some (.int 2)])]⟩,
         ⟨2, [("A".data, [none, none]),
              ("C".data, [some (.str "x".data), some (.str "y".data)])]⟩]
      = ⟨4, [("B".data, [some (.int 1), some (.int 2), none, none]),
             ("C".data, [none, none, some (.str "x".data), some (.str "y".data)])]⟩ := by
  refine ⟨?_, ?_, ?_, by with_unfolding_all rfl⟩
  · intro e dfs he
    rcases dfs with - | ⟨d0, dtl⟩
    · simp [combine_dataframes, List.filter_cons, he]
    · simp [combine_dataframes, List.filter_cons, he]
  · intro dfs h
    rcases dfs with - | ⟨d0, dtl⟩
    · rfl
    · rw [combine_dataframes]
      simp only [List.isEmpty_cons, Bool.false_eq_true, if_false]
      by_cases hv : (((d0 :: dtl).filter (fun df => !pdfEmpty df)).map dropAllNACols).isEmpty
      · rw [if_pos hv]
        have hfil : (d0 :: dtl).filter (fun df => !pdfEmpty df) = [] := by
          rcases hh : (d0 :: dtl).filter (fun df => !pdfEmpty df) with - | ⟨x, xs⟩
          · rfl
          · rw [hh] at hv
            simp at hv
        have hz : ∀ df ∈ (d0 :: dtl), df.nrows = 0 := by
          intro df hdf
          have hemp := List.filter_eq_nil_iff.mp hfil df hdf
          have hemp2 : pdfEmpty df = true := by
            revert hemp
            cases pdfEmpty df <;> simp
          exact pdfEmpty_nrows_eq_zero df (h df hdf) hemp2
        have : ((d0 :: dtl).map PDF.nrows).sum = 0 :=
          List.sum_eq_zero (by
            intro x hx
            rcases List.mem_map.mp hx with ⟨df, hdf, rfl⟩
            exact hz df hdf)
        simpa using this.symm
      · rw [if_neg hv]
        have hmapeq : (((d0 :: dtl).filter (fun df => !pdfEmpty df)).map dropAllNACols).map
            PDF.nrows = ((d0 :: dtl).filter (fun df => !pdfEmpty df)).map PDF.nrows := by
          rw [List.map_map]
          exact List.map_congr_left (fun d _ => rfl)
        show (pd_concat _).nrows = _
        rw [pd_concat]
        simp only []
        rw [hmapeq]
        exact filter_nonempty_nrows_sum (d0 :: dtl) h
  · intro dfs n h hmem
    rcases dfs with - | ⟨d0, dtl⟩
    · simp [combine_dataframes, colNames] at hmem
    · rw [combine_dataframes] at hmem
      simp only [List.isEmpty_cons, Bool.false_eq_true, if_false] at hmem
      by_cases hv : (((d0 :: dtl).filter (fun df => !pdfEmpty df)).map dropAllNACols).isEmpty
      · rw [if_pos hv] at hmem
        simp [colNames] at hmem
      · rw [if_neg hv] at hmem
        rw [pd_concat_colNames] at hmem
        have hmem2 := dedupFirstAux_subset _ _ _ hmem
        rcases List.mem_flatMap.mp hmem2 with ⟨df', hdf', hn⟩
        rcases List.mem_map.mp hdf' with ⟨df, hdf, rfl⟩
        have hdfs : df ∈ (d0 :: dtl) := (List.mem_filter.mp hdf).1
        rcases List.mem_map.mp hn with ⟨c, hc, rfl⟩
        have hcfil := List.mem_filter.mp hc
        have hall := h df hdfs c hcfil.1 rfl
        rw [hall] at hcfil
        simp at hcfil

/-- Witness for C8: the discard rule and the row-count rule applied to the
regression batches. -/
theorem claim_C8_combine_dataframes_witness :
    combine_dataframes [(⟨0, []⟩ : PDF),
        ⟨2, [("B".data, [some (.int 1), some (.int 2)])]⟩]
      = combine_dataframes [⟨2, [("B".data, [some (.int 1), some (.int 2)])]⟩]
    ∧ (combine_dataframes
        [⟨2, [("A".data, [none, none]), ("B".data, [some (.int 1), some (.int 2)])]⟩,
         ⟨2, [("A".data, [none, none]),
              ("C".data, [some (.str "x".data), some (.str "y".data)])]⟩]).nrows = 4 := by
  constructor
  · exact claim_C8_combine_dataframes.1 ⟨0, []⟩
      [⟨2, [("B".data, [some (.int 1), some (.int 2)])]⟩] (by decide)
  · rw [claim_C8_combine_dataframes.2.1 _ (by
      intro df hdf h0
      fin_cases hdf <;> simp)]
    with_unfolding_all rfl

/-- A cell converts to nothing exactly when it was nothing. -/
theorem to_naive_utc_cell_eq_none (x : Option PTimestamp) :
    to_naive_utc_cell x = none ↔ x = none := by
  cases x <;> simp [to_naive_utc_cell]

/-- A row whose converted derived key is missing is unchanged by the
conversion (all its time cells were already missing). -/
theorem to_naive_utc_row_of_none (r : SRow)
    (h : (sort_key (to_naive_utc_row r)).isNone = true) : to_naive_utc_row r = r := by
  rcases r with ⟨pt, st, en, p⟩
  rcases pt with - | a <;> rcases st with - | b <;> rcases en with - | c <;>
    simp_all [sort_key, to_naive_utc_row, to_naive_utc_cell]

/-- The key comparison is transitive. -/
theorem okey_le_trans (a b c : Option Int)
    (h1 : okey_le a b = true) (h2 : okey_le b c = true) : okey_le a c = true := by
  rcases a with - | x <;> rcases b with - | y <;> rcases c with - | z <;>
    simp_all [okey_le] <;> omega

/-- The key comparison is total. -/
theorem okey_le_total (a b : Option Int) : (okey_le a b || okey_le b a) = true := by
  rcases a with - | x <;> rcases b with - | y <;> simp_all [okey_le] <;> omega

/-- `unstable_sort_values` meets everything pandas guarantees for
`Series.sort_values()`: it produces a key-sorted permutation. -/
theorem unstable_sort_values_spec : SortValuesSpec unstable_sort_values := by
  intro l
  constructor
  · exact (List.mergeSort_perm _ _).trans (List.reverse_perm l)
  · exact @List.sorted_mergeSort SRow (fun a b => okey_le (sort_key a) (sort_key b))
      (fun a b c h1 h2 => okey_le_trans _ _ _ h1 h2) (fun a b => okey_le_total _ _) l.reverse

/-- C2 counterexample: the engine does not guarantee that equal derived
keys keep their arrival order. With a sorting kernel that meets the full
`Series.sort_values()` contract (`SortValuesSpec`, i.e. a key-sorted
permutation — the default quicksort kind is not documented stable), two
records with the same `point_time`, arriving as positions 0 then 1, come
back as 1 then 0. -/
theorem claim_C2_counterexample :
    SortValuesSpec unstable_sort_values
    ∧ sort_dataframe_by_time unstable_sort_values
        [⟨some ⟨1, none⟩, none, none, 0⟩, ⟨some ⟨1, none⟩, none, none, 1⟩]
      = [⟨some ⟨1 - 540, none⟩, none, none, 1⟩, ⟨some ⟨1 - 540, none⟩, none, none, 0⟩] :=
  ⟨unstable_sort_values_spec, by with_unfolding_all rfl⟩

/-- C2 (amended): for every sorting kernel satisfying the documented
`sort_values` contract, the engine's output is a permutation of the
(time-normalized) input, sorted ascending by the derived key —
`point_time` if present, else `start_time`, else `end_time`; a row
lacking all three time fields never precedes a keyed row; and when no
row has any usable key, the input comes back in its original, unsorted
order, unchanged. The relative order of equal keys is whatever the
kernel yields: arrival-order tie-breaking is not guaranteed. -/
theorem claim_C2_merge_ordering (sv : List SRow → List SRow) (hsv : SortValuesSpec sv)
    (rows : List SRow) :
    ((sort_dataframe_by_time sv rows).Perm (rows.map to_naive_utc_row))
    ∧ (sort_dataframe_by_time sv rows).Pairwise (fun a b =>
         okey_le (sort_key a) (sort_key b) = true)
    ∧ (sort_dataframe_by_time sv rows).Pairwise (fun a b =>
         (sort_key a).isNone = true → (sort_key b).isNone = true)
    ∧ ((∀ r ∈ rows.map to_naive_utc_row, (sort_key r).isNone = true) →
        sort_dataframe_by_time sv rows = rows) := by
  have hNoneLast : ∀ {l : List SRow},
      l.Pairwise (fun a b => okey_le (sort_key a) (sort_key b) = true) →
      l.Pairwise (fun a b => (sort_key a).isNone = true → (sort_key b).isNone = true) := by
    intro l hp
    refine hp.imp ?_
    intro a b h ha
    rw [Option.isNone_iff_eq_none.mp ha] at h
    rcases hb : sort_key b with - | y
    · rfl
    · rw [hb] at h
      simp [okey_le] at h
  rcases rows with - | ⟨r0, rtl⟩
  · refine ⟨by simp [sort_dataframe_by_time], by simp [sort_dataframe_by_time], ?_, ?_⟩ <;>
      simp [sort_dataframe_by_time]
  · rw [sort_dataframe_by_time]
    simp only [List.isEmpty_cons, Bool.false_eq_true, if_false]
    by_cases hall : ((r0 :: rtl).map to_naive_utc_row).all (fun r => (sort_key r).isNone)
    · rw [if_pos hall]
      have hallm : ∀ r ∈ (r0 :: rtl).map to_naive_utc_row, (sort_key r).isNone = true :=
        List.all_eq_true.mp hall
      have hle := List.pairwise_of_forall_mem_list (l := (r0 :: rtl).map to_naive_utc_row)
        (r := fun a b => okey_le (sort_key a) (sort_key b) = true) (by
          intro a ha b hb
          rw [Option.isNone_iff_eq_none.mp (hallm a ha),
              Option.isNone_iff_eq_none.mp (hallm b hb)]
          rfl)
      refine ⟨List.Perm.refl _, hle, hNoneLast hle, ?_⟩
      intro _
      exact List.map_congr_left (fun r hr => to_naive_utc_row_of_none r
        (hallm (to_naive_utc_row r) (List.mem_map_of_mem _ hr))) ▸
        ((r0 :: rtl).map_id)
    · rw [if_neg hall]
      obtain ⟨hperm, hpair⟩ := hsv ((r0 :: rtl).map to_naive_utc_row)
      refine ⟨hperm, hpair, hNoneLast hpair, ?_⟩
      intro hcontra
      exact absurd (List.all_eq_true.mpr (fun r hr => hcontra r hr)) hall

/-- Witness for C2: under an admissible kernel, three one-key batch rows
with times 2, 1, 3 come back as 1, 2, 3 (up to the uniform normalization
shift), in sorted order. -/
theorem claim_C2_merge_ordering_witness :
    SortValuesSpec unstable_sort_values
    ∧ sort_dataframe_by_time unstable_sort_values
        [⟨some ⟨2, none⟩, none, none, 0⟩, ⟨some ⟨1, none⟩, none, none, 1⟩,
         ⟨some ⟨3, none⟩, none, none, 2⟩] =
        [⟨some ⟨1 - 540, none⟩, none, none, 1⟩, ⟨some ⟨2 - 540, none⟩, none, none, 0⟩,
         ⟨some ⟨3 - 540, none⟩, none, none, 2⟩]
    ∧ (sort_dataframe_by_time unstable_sort_values
        [⟨some ⟨2, none⟩, none, none, 0⟩, ⟨some ⟨1, none⟩, none, none, 1⟩,
         ⟨some ⟨3, none⟩, none, none, 2⟩]).Pairwise (fun a b =>
          okey_le (sort_key a) (sort_key b) = true) :=
  ⟨unstable_sort_values_spec, by with_unfolding_all rfl,
   (claim_C2_merge_ordering unstable_sort_values unstable_sort_values_spec
     [⟨some ⟨2, none⟩, none, none, 0⟩, ⟨some ⟨1, none⟩, none, none, 1⟩,
      ⟨some ⟨3, none⟩, none, none, 2⟩]).2.1⟩

/-- C10 counterexample: for an activity whose coordinate parses to
latitude 0.0, the Android dialect emits the activity record with the
zero coordinate itself — not with null coordinates — while the iPhone
dialect emits nothing for the analogous input. -/
theorem claim_C10_counterexample :
    parse_android_data
      (.obj [("semanticSegments".data, .arr [
        .obj [("startTime".data, .str "S".data), ("endTime".data, .str "E".data),
              ("activity".data, .obj [
                ("start".data, .obj [("latLng".data, .str "0.0°, 135.0°".data)]),
                ("topCandidate".data, .obj [])])]])]) "u".data
      = .ok [{ type_ := "activity_start".data,
               start_time := some (.str "S".data), end_time := some (.str "E".data),
               point_time := none,
               latitude := some 0, longitude := some 135,
               visit_probability := none, visit_placeId := none, visit_semanticType := none,
               activity_distanceMeters := none, activity_type := none,
               activity_probability := none, username := "u".data }]
    ∧ parse_iphone_data
      (.arr [.obj [("startTime".data, .str "S".data), ("endTime".data, .str "E".data),
                   ("activity".data, .obj [("start".data, .str "geo:0.0,135.0".data),
                                           ("topCandidate".data, .obj [])])]]) "u".data
      = .ok [] := by
  exact ⟨by with_unfolding_all rfl, by with_unfolding_all rfl⟩

/-- C10 (amended): the iPhone activity block emits its record exactly when
both parsed coordinates are truthy (non-null and non-zero), so a failed
parse or a zero coordinate silently emits nothing; the Android activity
block, once `latLng` is present, always emits its record and carries
exactly the parse result — null coordinates when the string fails to
parse, and the zero value itself when it parses to zero. -/
theorem claim_C10_activity_emission :
    (∀ (activity tc : Json) (st en : Option Json) (u key : List Char) (v : Json),
      pyGetD activity key (.str []) = .ok v →
      (pyTruthyQ (extract_geo_coordinates v).1 &&
       pyTruthyQ (extract_geo_coordinates v).2) = false →
      iphoneActivityKey activity tc st en u key = .ok [])
    ∧ (∀ (activity tc : Json) (st en : Option Json) (u key : List Char) (v : Json)
        (dm : Option Json) (aty apr : Option Json),
      pyGetD activity key (.str []) = .ok v →
      (pyTruthyQ (extract_geo_coordinates v).1 &&
       pyTruthyQ (extract_geo_coordinates v).2) = true →
      iphoneFloatOpt activity "distanceMeters".data = .ok dm →
      pyGet tc "type".data = .ok aty →
      iphoneFloatOpt tc "probability".data = .ok apr →
      iphoneActivityKey activity tc st en u key =
        .ok [{ type_ := "activity_".data ++ key,
               start_time := st, end_time := en, point_time := none,
               latitude := (extract_geo_coordinates v).1,
               longitude := (extract_geo_coordinates v).2,
               visit_probability := none, visit_placeId := none, visit_semanticType := none,
               activity_distanceMeters := dm, activity_type := aty,
               activity_probability := apr, username := u }])
    ∧ (∀ (activity tc : Json) (st en : Option Json) (u key : List Char) (sub ll : Json)
        (dm aty apr : Option Json),
      pyContains activity key = .ok true →
      pySub activity key = .ok sub →
      pyContains sub "latLng".data = .ok true →
      pySub sub "latLng".data = .ok ll →
      pyGet activity "distanceMeters".data = .ok dm →
      pyGet tc "type".data = .ok aty →
      pyGet tc "probability".data = .ok apr →
      androidActivityKey activity tc st en u key =
        .ok [{ type_ := "activity_".data ++ key,
               start_time := st, end_time := en, point_time := none,
               latitude := (parse_latlng_degrees ll).1,
               longitude := (parse_latlng_degrees ll).2,
               visit_probability := none, visit_placeId := none, visit_semanticType := none,
               activity_distanceMeters := dm, activity_type := aty,
               activity_probability := apr, username := u }]) := by
  refine ⟨?_, ?_, ?_⟩
  · intro activity tc st en u key v hv hcond
    simp [iphoneActivityKey, hv, hcond, Bind.bind, Except.bind, Pure.pure, Except.pure]
  · intro activity tc st en u key v dm aty apr hv hcond hdm haty hapr
    simp [iphoneActivityKey, hv, hcond, hdm, haty, hapr, Bind.bind, Except.bind,
      Pure.pure, Except.pure]
  · intro activity tc st en u key sub ll dm aty apr hk hsub hll hllv hdm haty hapr
    simp [androidActivityKey, hk, hsub, hll, hllv, hdm, haty, hapr, Bind.bind, Except.bind,
      Pure.pure, Except.pure]

/-- Witness for C10: a zero latitude suppresses the iPhone record; an
unparsable Android string yields the record with null coordinates. -/
theorem claim_C10_activity_emission_witness :
    iphoneActivityKey (.obj [("start".data, .str "geo:0.0,135.0".data)]) (.obj [])
      (some (.str "S".data)) (some (.str "E".data)) "u".data "start".data = .ok []
    ∧ androidActivityKey (.obj [("start".data, .obj [("latLng".data, .str "bogus".data)])])
      (.obj []) (some (.str "S".data)) (some (.str "E".data)) "u".data "start".data =
      .ok [{ type_ := "activity_start".data,
             start_time := some (.str "S".data), end_time := some (.str "E".data),
             point_time := none, latitude := none, longitude := none,
             visit_probability := none, visit_placeId := none, visit_semanticType := none,
             activity_distanceMeters := none, activity_type := none,
             activity_probability := none, username := "u".data }] := by
  constructor
  · exact claim_C10_activity_emission.1 (.obj [("start".data, .str "geo:0.0,135.0".data)])
      (.obj []) (some (.str "S".data)) (some (.str "E".data)) "u".data "start".data
      (.str "geo:0.0,135.0".data) (by with_unfolding_all rfl) (by with_unfolding_all rfl)
  · have := claim_C10_activity_emission.2.2
      (.obj [("start".data, .obj [("latLng".data, .str "bogus".data)])]) (.obj [])
      (some (.str "S".data)) (some (.str "E".data)) "u".data "start".data
      (.obj [("latLng".data, .str "bogus".data)]) (.str "bogus".data)
      none none none
      (by with_unfolding_all rfl) (by with_unfolding_all rfl) (by with_unfolding_all rfl)
      (by with_unfolding_all rfl) (by with_unfolding_all rfl) (by with_unfolding_all rfl)
      (by with_unfolding_all rfl)
    rw [this]
    with_unfolding_all rfl

/-- C6: once the quantitative tier of the classifier is reached (no
filename keyword, no track-name keyword, more than one trackpoint), the
label is decided in this exact order on the average of the strictly
positive speeds and the cumulative positive elevation gain: hiking when
the average is below 6 km/h and the gain above 100 m, else walking below
4 km/h, running below 15 km/h, cycling below 40 km/h, driving at or
above 40 km/h, otherwise unknown. Classification is a pure function of
its three arguments by construction. -/
theorem claim_C6_quantitative_classifier
    (filename : List Char) (track_name : Option (List Char)) (tps : List Trackpoint)
    (h1 : pyInStr "yamap".data (pyLower filename) = false)
    (h2 : (pyInStr "run".data (pyLower filename) ||
           pyInStr "running".data (pyLower filename)) = false)
    (h3 : (pyInStr "bike".data (pyLower filename) ||
           pyInStr "cycling".data (pyLower filename)) = false)
    (h4 : (pyInStr "walk".data (pyLower filename) ||
           pyInStr "walking".data (pyLower filename)) = false)
    (h5 : (pyTruthyStr track_name &&
           mountain_keywords.any (fun k => pyInStr k (pyLower (track_name.getD [])))) = false)
    (h6 : (pyTruthyStr track_name &&
           running_keywords.any (fun k => pyInStr k (pyLower (track_name.getD [])))) = false)
    (h7 : (pyTruthyStr track_name &&
           cycling_keywords.any (fun k => pyInStr k (pyLower (track_name.getD [])))) = false)
    (hlen : 1 < tps.length) :
    classify_activity filename track_name tps =
      (if avg_positive_speed tps < 6 ∧ 100 < calculate_elevation_gain tps then "hiking".data
       else if avg_positive_speed tps < 4 then "walking".data
       else if avg_positive_speed tps < 15 then "running".data
       else if avg_positive_speed tps < 40 then "cycling".data
       else if 40 ≤ avg_positive_speed tps then "driving".data
       else "unknown".data) := by
  simp [classify_activity, h1, h2, h3, h4, h5, h6, h7, hlen, GPX_hiking_max,
    GPX_walking_max, GPX_running_max, GPX_cycling_max, GPX_driving_min, GPX_hiking_min_gain]

/-- Witness for C6: a keyword-free filename and track name with two slow
points climbing 200 m classify as hiking. -/
theorem claim_C6_quantitative_classifier_witness :
    classify_activity "20240101_tokyo.gpx".data (some "Test Course".data)
      [⟨some 1, some 1, some 0, some 0, 0, some 5⟩,
       ⟨some 1, some 1, some 200, some 60, 1, some 5⟩] = "hiking".data := by
  rw [claim_C6_quantitative_classifier "20240101_tokyo.gpx".data (some "Test Course".data)
    [⟨some 1, some 1, some 0, some 0, 0, some 5⟩,
     ⟨some 1, some 1, some 200, some 60, 1, some 5⟩]
    (by decide) (by decide) (by decide) (by decide) (by decide) (by decide) (by decide)
    (by decide)]
  with_unfolding_all rfl
